import Mathlib

/-!
# MattMarchingCubes: struct declarations and their C layout

Embedding of the two headers
`MarchingCubesColorBlobParams.h` and `VertexPositionNormalColor.h`.
The headers hold only struct declarations; each one is embedded as the
ordered list of its field declarations.  The layout of a struct in memory
is computed from that list by the C struct layout rule.
-/

namespace MattMarchingCubes

/-- Element kind of a scalar or of one lane of a vector type. -/
inductive Scalar where
  | float32
  | uint32
  deriving DecidableEq, Repr

/-- The C types used by the field declarations of the two headers. -/
inductive CType where
  | simd_float3
  | simd_uint3
  | float
  | uint32_t
  deriving DecidableEq, Repr

/-- Modelled from the spec: `<simd/simd.h>` is a system header, not part of
the repository.  Number of components of a type (3 for the simd vectors). -/
def CType.lanes : CType → Nat
  | .simd_float3 => 3
  | .simd_uint3 => 3
  | .float => 1
  | .uint32_t => 1

/-- Modelled from the spec: element kind of a type (`<simd/simd.h>`,
`<stdint.h>`). -/
def CType.elem : CType → Scalar
  | .simd_float3 => .float32
  | .simd_uint3 => .uint32
  | .float => .float32
  | .uint32_t => .uint32

/-- Modelled from the spec: `sizeof` of a type.  The three-lane simd vectors
occupy 16 bytes, `float` and `uint32_t` 4 bytes. -/
def CType.size : CType → Nat
  | .simd_float3 => 16
  | .simd_uint3 => 16
  | .float => 4
  | .uint32_t => 4

/-- Modelled from the spec: alignment of a type.  The three-lane simd vectors
are 16-byte aligned, `float` and `uint32_t` 4-byte aligned. -/
def CType.align : CType → Nat
  | .simd_float3 => 16
  | .simd_uint3 => 16
  | .float => 4
  | .uint32_t => 4

/-- One field declaration `type name;` of a struct. -/
structure FieldDecl where
  ty : CType
  name : String
  deriving DecidableEq, Repr

/-- A struct declaration: its name and its field declarations in source order. -/
structure StructDecl where
  name : String
  fields : List FieldDecl
  deriving DecidableEq, Repr

/-- The declaration `typedef struct ... ColorSphere;`
(MarchingCubesColorBlobParams.h, lines 5-11). -/
def ColorSphere : StructDecl :=
  { name := "ColorSphere"
    fields :=
      [ ⟨.simd_float3, "center"⟩,
        ⟨.float, "radius"⟩,
        ⟨.simd_float3, "color"⟩,
        ⟨.float, "_pad"⟩ ] }

/-- The declaration `typedef struct ... MarchingCubesColorBlobParams;`
(MarchingCubesColorBlobParams.h, lines 13-20). -/
def MarchingCubesColorBlobParams : StructDecl :=
  { name := "MarchingCubesColorBlobParams"
    fields :=
      [ ⟨.simd_uint3, "cells"⟩,
        ⟨.simd_float3, "origin"⟩,
        ⟨.simd_float3, "cellSize"⟩,
        ⟨.float, "isoLevel"⟩,
        ⟨.uint32_t, "sphereCount"⟩,
        ⟨.float, "smoothK"⟩ ] }

/-- The declaration `struct VertexPositionNormalColor ...;`
(VertexPositionNormalColor.h, lines 7-11). -/
def VertexPositionNormalColor : StructDecl :=
  { name := "VertexPositionNormalColor"
    fields :=
      [ ⟨.simd_float3, "position"⟩,
        ⟨.simd_float3, "normal"⟩,
        ⟨.simd_float3, "color"⟩ ] }

/-- What a field declaration says: name, number of components, element kind. -/
def FieldDecl.shape (f : FieldDecl) : String × Nat × Scalar :=
  (f.name, f.ty.lanes, f.ty.elem)

/-! ## The C struct layout rule -/

/-- Smallest multiple of `a` that is at least `off` (for `a > 0`). -/
def alignUp (off a : Nat) : Nat :=
  (off + a - 1) / a * a

/-- One placed field: its declaration and its byte offset. -/
structure Placed where
  decl : FieldDecl
  offset : Nat
  deriving DecidableEq, Repr

/-- Modelled from the spec: the C struct layout rule.  Starting at byte
`off`, each field is placed at the next offset that is a multiple of its
alignment, and the following field starts searching after its last byte. -/
def placeFrom (off : Nat) : List FieldDecl → List Placed
  | [] => []
  | f :: fs =>
    let o := alignUp off f.ty.align
    ⟨f, o⟩ :: placeFrom (o + f.ty.size) fs

/-- First byte after the last placed field, when placing starts at `off`. -/
def endFrom (off : Nat) : List FieldDecl → Nat
  | [] => off
  | f :: fs => endFrom (alignUp off f.ty.align + f.ty.size) fs

/-- The placed fields of a struct. -/
def layout (S : StructDecl) : List Placed :=
  placeFrom 0 S.fields

/-- Byte offsets of the fields of a struct, in declaration order. -/
def offsets (S : StructDecl) : List Nat :=
  (layout S).map Placed.offset

/-- Alignment of a struct: the largest alignment of its fields. -/
def structAlign (S : StructDecl) : Nat :=
  (S.fields.map (fun f => f.ty.align)).foldl max 1

/-- Modelled from the spec: `sizeof` of a struct, the end of its last field
rounded up to the alignment of the struct. -/
def structSize (S : StructDecl) : Nat :=
  alignUp (endFrom 0 S.fields) (structAlign S)

/-- Byte offset of the field called `n`, if the struct declares one. -/
def offsetOf (S : StructDecl) (n : String) : Option Nat :=
  ((layout S).find? (fun p => p.decl.name == n)).map Placed.offset

/-- Byte offset, from the start of a contiguous array of `S`, of field `n`
of the element with index `i`. -/
def arrayFieldOffset (S : StructDecl) (i : Nat) (n : String) : Option Nat :=
  (offsetOf S n).map (fun o => i * structSize S + o)

/-- Size of the data of a struct when its components are packed with no
gaps: the sum over the fields of lanes times 4 bytes. -/
def packedSize (S : StructDecl) : Nat :=
  (S.fields.map (fun f => f.ty.lanes * 4)).sum

/-- Total number of scalar components the fields of a struct hold. -/
def laneCount (S : StructDecl) : Nat :=
  (S.fields.map (fun f => f.ty.lanes)).sum

/-- The struct `S` with every field called `n` removed. -/
def dropField (S : StructDecl) (n : String) : StructDecl :=
  { S with fields := S.fields.filter (fun f => f.name != n) }

/-! ## Objects in memory and the values their fields hold -/

/-- The bytes of one struct object: the byte at each offset from the start of
the object.  A cell is read modulo 256. -/
abbrev Obj := Nat → Nat

/-- The byte at offset `a`. -/
def loadByte (m : Obj) (a : Nat) : Nat :=
  m a % 256

/-- The 32-bit word whose four bytes start at offset `a` (little-endian). -/
def loadWord (m : Obj) (a : Nat) : Nat :=
  loadByte m a + 256 * loadByte m (a + 1) + 65536 * loadByte m (a + 2)
    + 16777216 * loadByte m (a + 3)

/-- The object `m` after the low 32 bits of `w` are written to the four bytes
that start at offset `a` (little-endian). -/
def storeWord (m : Obj) (a w : Nat) : Obj :=
  fun x =>
    if x = a then w % 256
    else if x = a + 1 then w / 256 % 256
    else if x = a + 2 then w / 65536 % 256
    else if x = a + 3 then w / 16777216 % 256
    else m x

/-- Consecutive words written from offset `a` on. -/
def storeWords (m : Obj) (a : Nat) : List Nat → Obj
  | [] => m
  | w :: ws => storeWords (storeWord m a w) (a + 4) ws

/-- The value a lane holds, as the program sees it. -/
inductive Value where
  | int (z : Int)
  | real (neg : Bool) (mant : Nat) (exp : Int)
  | inf (neg : Bool)
  | nan
  deriving DecidableEq, Repr

/-- Modelled from the spec: IEEE-754 binary32, the format of `float`.  The
word has a sign bit, 8 exponent bits and 23 fraction bits; a finite number is
`(-1)^neg * mant * 2^exp`. -/
def decodeFloat (w : Nat) : Value :=
  let neg := decide (w / 2147483648 % 2 = 1)
  let e := w / 8388608 % 256
  let f := w % 8388608
  if e = 255 then (if f = 0 then .inf neg else .nan)
  else if e = 0 then .real neg f (-149)
  else .real neg (8388608 + f) ((e : Int) - 150)

/-- Modelled from the spec: the value of a 32-bit word read at the given
element kind (`<stdint.h>`, `<simd/simd.h>`).  An unsigned lane is the word
itself, with no sign bit; a float lane is decoded as IEEE-754 binary32. -/
def Scalar.decode : Scalar → Nat → Value
  | .uint32, w => .int (w : Int)
  | .float32, w => decodeFloat w

/-- Modelled from the spec: conversion of an integer to `uint32_t` on
assignment, reduction modulo 2^32. -/
def toUInt32 (z : Int) : Nat :=
  (z % 4294967296).toNat

/-- The values of the lanes of the field called `n` of the object `m`, read
at the declared type of the field; `none` if the struct declares no such
field. -/
def loadField (S : StructDecl) (m : Obj) (n : String) : Option (List Value) :=
  ((layout S).find? (fun p => p.decl.name == n)).map
    (fun p => (List.range p.decl.ty.lanes).map
      (fun k => p.decl.ty.elem.decode (loadWord m (p.offset + 4 * k))))

/-- The object `m` after the words `ws` are written to the lanes of the field
called `n`; unchanged if the struct declares no such field. -/
def storeField (S : StructDecl) (m : Obj) (n : String) (ws : List Nat) : Obj :=
  match (layout S).find? (fun p => p.decl.name == n) with
  | none => m
  | some p => storeWords m p.offset (ws.take p.decl.ty.lanes)

/-- The assignment `p.sphereCount = z` on the object `m` of type
`MarchingCubesColorBlobParams`. -/
def setSphereCount (m : Obj) (z : Int) : Obj :=
  storeField MarchingCubesColorBlobParams m "sphereCount" [toUInt32 z]

/-- An object whose bytes are all zero except those of `isoLevel`, which hold
the word `0xBF800000`. -/
def negIsoLevelObj : Obj :=
  storeField MarchingCubesColorBlobParams (fun _ => 0) "isoLevel" [3212836864]

/-- The struct made of `center`, `radius` and `color` alone. -/
def ColorSphereNoPad : StructDecl :=
  dropField ColorSphere "_pad"

/-! ## The layout rule picks the next aligned offset -/

theorem alignUp_mod (off a : Nat) : alignUp off a % a = 0 := by
  unfold alignUp
  exact Nat.mul_mod_left _ _

theorem alignUp_ge (off a : Nat) (ha : 0 < a) : off ≤ alignUp off a := by
  unfold alignUp
  have h := Nat.div_add_mod (off + a - 1) a
  have hm := Nat.mod_lt (off + a - 1) ha
  have hc : (off + a - 1) / a * a = a * ((off + a - 1) / a) := Nat.mul_comm _ _
  omega

theorem alignUp_lt (off a : Nat) (ha : 0 < a) : alignUp off a < off + a := by
  unfold alignUp
  have h := Nat.div_add_mod (off + a - 1) a
  have hc : (off + a - 1) / a * a = a * ((off + a - 1) / a) := Nat.mul_comm _ _
  omega

/-! ## Words in memory -/

theorem loadWord_lt (m : Obj) (a : Nat) : loadWord m a < 4294967296 := by
  unfold loadWord loadByte
  omega

theorem loadWord_storeWord (m : Obj) (a w : Nat) :
    loadWord (storeWord m a w) a = w % 4294967296 := by
  unfold loadWord loadByte storeWord
  have h1 : ¬ (a + 1 = a) := by omega
  have h2 : ¬ (a + 2 = a) := by omega
  have h3 : ¬ (a + 2 = a + 1) := by omega
  have h4 : ¬ (a + 3 = a) := by omega
  have h5 : ¬ (a + 3 = a + 1) := by omega
  have h6 : ¬ (a + 3 = a + 2) := by omega
  simp only [if_pos, if_neg, h1, h2, h3, h4, h5, h6, if_true, if_false]
  omega

theorem toUInt32_cast (z : Int) : ((toUInt32 z : Nat) : Int) = z % 4294967296 := by
  unfold toUInt32
  exact Int.toNat_of_nonneg (Int.emod_nonneg z (by decide))

theorem toUInt32_lt (z : Int) : toUInt32 z < 4294967296 := by
  have h := toUInt32_cast z
  have h2 : z % 4294967296 < 4294967296 := Int.emod_lt_of_pos z (by decide)
  omega

theorem sphereCount_placed :
    (layout MarchingCubesColorBlobParams).find? (fun p => p.decl.name == "sphereCount")
      = some ⟨⟨CType.uint32_t, "sphereCount"⟩, 52⟩ := by
  decide

/-- The same read on the float field `isoLevel` can give a negative number:
the object `negIsoLevelObj` holds -1.0 there. -/
theorem isoLevel_can_be_negative :
    loadField MarchingCubesColorBlobParams negIsoLevelObj "isoLevel"
      = some [Value.real true 8388608 (-23)] := by
  decide

/-! ## Field declarations -/

/-- C1: `ColorSphere` declares exactly four fields, in this order:
`center` (3-component float vector, `simd_float3`), `radius` (scalar `float`),
`color` (3-component float vector, `simd_float3`), `_pad` (scalar `float`). -/
theorem ColorSphere_fields :
    ColorSphere.fields.length = 4 ∧
    ColorSphere.fields.map FieldDecl.name = ["center", "radius", "color", "_pad"] ∧
    ColorSphere.fields.map FieldDecl.ty =
      [CType.simd_float3, CType.float, CType.simd_float3, CType.float] ∧
    ColorSphere.fields.map FieldDecl.shape =
      [("center", 3, Scalar.float32), ("radius", 1, Scalar.float32),
       ("color", 3, Scalar.float32), ("_pad", 1, Scalar.float32)] := by
  decide

/-- C2: `MarchingCubesColorBlobParams` declares exactly six fields, in this
order: `cells` (3-component unsigned 32-bit vector), `origin` and `cellSize`
(3-component float vectors), `isoLevel` (scalar float), `sphereCount`
(unsigned 32-bit integer), `smoothK` (scalar float). -/
theorem MarchingCubesColorBlobParams_fields :
    MarchingCubesColorBlobParams.fields.length = 6 ∧
    MarchingCubesColorBlobParams.fields.map FieldDecl.name =
      ["cells", "origin", "cellSize", "isoLevel", "sphereCount", "smoothK"] ∧
    MarchingCubesColorBlobParams.fields.map FieldDecl.ty =
      [CType.simd_uint3, CType.simd_float3, CType.simd_float3, CType.float,
       CType.uint32_t, CType.float] ∧
    MarchingCubesColorBlobParams.fields.map FieldDecl.shape =
      [("cells", 3, Scalar.uint32), ("origin", 3, Scalar.float32),
       ("cellSize", 3, Scalar.float32), ("isoLevel", 1, Scalar.float32),
       ("sphereCount", 1, Scalar.uint32), ("smoothK", 1, Scalar.float32)] := by
  decide

/-- C3: `VertexPositionNormalColor` declares exactly three fields, in this
order, each a 3-component float vector: `position`, `normal`, `color`; none
of them is a padding field (no field is called `_pad`, none is a scalar). -/
theorem VertexPositionNormalColor_fields :
    VertexPositionNormalColor.fields.length = 3 ∧
    VertexPositionNormalColor.fields.map FieldDecl.name = ["position", "normal", "color"] ∧
    VertexPositionNormalColor.fields.map FieldDecl.ty =
      [CType.simd_float3, CType.simd_float3, CType.simd_float3] ∧
    VertexPositionNormalColor.fields.map FieldDecl.shape =
      [("position", 3, Scalar.float32), ("normal", 3, Scalar.float32),
       ("color", 3, Scalar.float32)] ∧
    VertexPositionNormalColor.fields.any (fun f => f.name == "_pad") = false ∧
    VertexPositionNormalColor.fields.filter (fun f => f.ty.lanes != 3) = [] ∧
    dropField VertexPositionNormalColor "_pad" = VertexPositionNormalColor := by
  decide

/-! ## Sizes and offsets -/

/-- C4, as stated, fails: the byte size of `ColorSphere` under the C struct
layout rule is not 32, the size of 8 floats. -/
theorem ColorSphere_size_ne_eight_floats :
    ¬ (structSize ColorSphere = 8 * CType.float.size ∧ structSize ColorSphere = 32) := by
  decide

/-- C4, amended: the byte size of `ColorSphere` under the C struct layout rule
is 64 bytes, the size of 16 floats, with `center`, `radius`, `color`, `_pad` at
offsets 0, 16, 32, 48 and the end of the last field at 52; the fields hold
3+1+3+1 = 8 float components, 32 bytes when packed without gaps. -/
theorem ColorSphere_size :
    structSize ColorSphere = 64 ∧
    structSize ColorSphere = 16 * CType.float.size ∧
    offsets ColorSphere = [0, 16, 32, 48] ∧
    endFrom 0 ColorSphere.fields = 52 ∧
    laneCount ColorSphere = 3 + 1 + 3 + 1 ∧
    packedSize ColorSphere = 32 := by
  decide

/-- C5: the byte size of `ColorSphere` is a multiple of 16, so in a contiguous
array every element starts on a 16-byte boundary and the `center` and `color`
fields of every element lie at offsets that are multiples of 16. -/
theorem ColorSphere_array_aligned (i : Nat) :
    structSize ColorSphere % 16 = 0 ∧
    (i * structSize ColorSphere) % 16 = 0 ∧
    (∃ o, arrayFieldOffset ColorSphere i "center" = some o ∧ o % 16 = 0) ∧
    (∃ o, arrayFieldOffset ColorSphere i "color" = some o ∧ o % 16 = 0) := by
  have hs : structSize ColorSphere = 64 := by decide
  have hc : offsetOf ColorSphere "center" = some 0 := by decide
  have hk : offsetOf ColorSphere "color" = some 32 := by decide
  rw [hs]
  refine ⟨by omega, by omega, ⟨i * 64 + 0, ?_, by omega⟩, ⟨i * 64 + 32, ?_, by omega⟩⟩
  · simp [arrayFieldOffset, hs, hc]
  · simp [arrayFieldOffset, hs, hk]

/-- C6, as stated, fails: it is not the case that the struct without `_pad`
has a size that is not a multiple of 16 while `ColorSphere` has one that is. -/
theorem ColorSphereNoPad_size_not_unaligned :
    ¬ (structSize ColorSphereNoPad % 16 ≠ 0 ∧ structSize ColorSphere % 16 = 0) := by
  decide

/-- C6, amended: with or without `_pad` the size is a multiple of 16.  The
struct made of `center`, `radius`, `color` alone has size 48, `ColorSphere`
has size 64; `_pad` lies at offset 48 and grows the struct by 16 bytes. -/
theorem ColorSphere_pad_effect :
    ColorSphereNoPad.fields.map FieldDecl.name = ["center", "radius", "color"] ∧
    ColorSphereNoPad.fields = ColorSphere.fields.take 3 ∧
    structSize ColorSphereNoPad = 48 ∧
    structSize ColorSphereNoPad % 16 = 0 ∧
    structSize ColorSphere = 64 ∧
    structSize ColorSphere % 16 = 0 ∧
    offsetOf ColorSphere "_pad" = some 48 ∧
    structSize ColorSphere = structSize ColorSphereNoPad + 16 := by
  decide

/-- C8: `VertexPositionNormalColor` has `position`, `normal`, `color` at byte
offsets 0, 16, 32 and a total size (vertex stride) of 48 bytes, not the 36
bytes of 9 tightly packed floats. -/
theorem VertexPositionNormalColor_layout :
    offsets VertexPositionNormalColor = [0, 16, 32] ∧
    offsetOf VertexPositionNormalColor "position" = some 0 ∧
    offsetOf VertexPositionNormalColor "normal" = some 16 ∧
    offsetOf VertexPositionNormalColor "color" = some 32 ∧
    structSize VertexPositionNormalColor = 48 ∧
    laneCount VertexPositionNormalColor = 9 ∧
    packedSize VertexPositionNormalColor = 36 ∧
    structSize VertexPositionNormalColor ≠ packedSize VertexPositionNormalColor := by
  decide

/-- C9: `MarchingCubesColorBlobParams` has `cells`, `origin`, `cellSize`,
`isoLevel`, `sphereCount`, `smoothK` at byte offsets 0, 16, 32, 48, 52, 56;
every offset is a multiple of the alignment of its field, each field ends
before every later one starts and inside the struct, and the total size is 64
bytes, a multiple of 16. -/
theorem MarchingCubesColorBlobParams_layout :
    (layout MarchingCubesColorBlobParams).map (fun p => (p.decl.name, p.offset)) =
      [("cells", 0), ("origin", 16), ("cellSize", 32), ("isoLevel", 48),
       ("sphereCount", 52), ("smoothK", 56)] ∧
    offsets MarchingCubesColorBlobParams = [0, 16, 32, 48, 52, 56] ∧
    (layout MarchingCubesColorBlobParams).all
      (fun p => p.offset % p.decl.ty.align == 0) = true ∧
    List.Pairwise (fun a b => a.offset + a.decl.ty.size ≤ b.offset)
      (layout MarchingCubesColorBlobParams) ∧
    (layout MarchingCubesColorBlobParams).all
      (fun p => decide (p.offset + p.decl.ty.size ≤ structSize MarchingCubesColorBlobParams))
      = true ∧
    structSize MarchingCubesColorBlobParams = 64 ∧
    structSize MarchingCubesColorBlobParams % 16 = 0 := by
  decide

/-! ## The sphere count -/

/-- C7: whatever bytes an object of type `MarchingCubesColorBlobParams` holds,
its field `sphereCount`, read at its declared type `uint32_t`, is one integer
`z` with `0 ≤ z < 2^32` (never negative).  Assigning an integer `z` to it
stores `z` modulo 2^32, and 0 is representable: after assigning 0 the field
reads 0. -/
theorem sphereCount_range (m : Obj) :
    (∃ z : Int, loadField MarchingCubesColorBlobParams m "sphereCount" = some [Value.int z]
      ∧ 0 ≤ z ∧ z < 2 ^ 32) ∧
    (∀ z : Int, loadField MarchingCubesColorBlobParams (setSphereCount m z) "sphereCount"
      = some [Value.int (z % 2 ^ 32)]) ∧
    loadField MarchingCubesColorBlobParams (setSphereCount m 0) "sphereCount"
      = some [Value.int 0] := by
  have hload : ∀ o : Obj, loadField MarchingCubesColorBlobParams o "sphereCount"
      = some [Value.int (loadWord o 52 : Nat)] := by
    intro o
    simp [loadField, sphereCount_placed, CType.lanes, CType.elem, Scalar.decode, List.range_succ]
  have hstore : ∀ z : Int, loadWord (setSphereCount m z) 52 = toUInt32 z := by
    intro z
    have hlt := toUInt32_lt z
    simp only [setSphereCount, storeField, sphereCount_placed, CType.lanes, List.take, storeWords,
      loadWord_storeWord]
    omega
  have hset : ∀ z : Int, loadField MarchingCubesColorBlobParams (setSphereCount m z)
      "sphereCount" = some [Value.int (z % 2 ^ 32)] := by
    intro z
    rw [hload, hstore, toUInt32_cast]
    norm_num
  refine ⟨⟨(loadWord m 52 : Nat), hload m, ?_, ?_⟩, hset, ?_⟩
  · exact Int.ofNat_nonneg _
  · have h := loadWord_lt m 52
    norm_num
    exact_mod_cast h
  · have h := hset 0
    simpa using h

end MattMarchingCubes
